import Mathlib

/-!
Verification development for the TitanNVR backend core: the stream
synchronization engine (`app/services/stream_manager.py`), the declarative
Frigate config reconciler (`app/services/config_generator.py`), the recording
scheduler (`app/services/scheduler.py`) and the camera CRUD coordination layer
(`app/routers/cameras.py`).

The Python services are shallowly embedded: every pure computation is
transcribed as a Lean function, and every effectful operation (HTTP calls to
the go2rtc relay or to Frigate, file writes, database commits) is modelled by
threading explicit state and outcome oracles through the transcription, so
that each control-flow path of the source corresponds to a value of the
oracle type.  Python dicts are modelled as association lists with
insert-replaces-in-place semantics, matching CPython's ordered dicts.
-/

set_option autoImplicit false

namespace TitanNVR

/-! ## Python dict model

Association lists with the key semantics of CPython dicts: assignment to an
existing key replaces the value in place, assignment to a fresh key appends,
`del` removes the (unique) entry for a key. -/

/-- Dict assignment: replace in place if the key exists, else append. -/
def dictInsert {α : Type} (k : String) (v : α) : List (String × α) → List (String × α)
  | [] => [(k, v)]
  | p :: rest => if p.1 = k then (k, v) :: rest else p :: dictInsert k v rest

/-- Dict lookup (`d[k]` / `d.get(k)`). -/
def dictLookup {α : Type} (k : String) : List (String × α) → Option α
  | [] => none
  | p :: rest => if p.1 = k then some p.2 else dictLookup k rest

/-- Dict key set (`k in d`). -/
def dictKeys {α : Type} (d : List (String × α)) : List String :=
  d.map Prod.fst

/-- Dict deletion (`del d[k]`); a dict holds a key at most once, so deleting
every entry with key `k` is the dict semantics. -/
def dictErase {α : Type} (k : String) (d : List (String × α)) : List (String × α) :=
  d.filter (fun p => p.1 != k)

theorem dictLookup_insert_self {α : Type} (k : String) (v : α) (d : List (String × α)) :
    dictLookup k (dictInsert k v d) = some v := by
  induction d with
  | nil => simp [dictInsert, dictLookup]
  | cons p rest ih =>
    by_cases h : p.1 = k
    · simp [dictInsert, dictLookup, h]
    · simp [dictInsert, dictLookup, h, ih]

theorem dictKeys_cons {α : Type} (p : String × α) (d : List (String × α)) :
    dictKeys (p :: d) = p.1 :: dictKeys d := rfl

theorem dictLookup_insert_of_ne {α : Type} (k j : String) (v : α) (d : List (String × α))
    (h : j ≠ k) : dictLookup k (dictInsert j v d) = dictLookup k d := by
  have hkj : ¬(k = j) := fun he => h he.symm
  induction d with
  | nil => simp [dictInsert, dictLookup, hkj, h]
  | cons p rest ih =>
    by_cases hp : p.1 = j
    · by_cases hk : p.1 = k
      · exact absurd (hp.symm.trans hk) h
      · simp [dictInsert, dictLookup, hp, hk, h, hkj]
    · by_cases hk : p.1 = k
      · simp [dictInsert, dictLookup, hp, hk, hkj]
      · simp [dictInsert, dictLookup, hp, hk, ih]

theorem mem_dictKeys_insert {α : Type} (k j : String) (v : α) (d : List (String × α)) :
    k ∈ dictKeys (dictInsert j v d) ↔ k = j ∨ k ∈ dictKeys d := by
  induction d with
  | nil => simp [dictInsert, dictKeys]
  | cons p rest ih =>
    by_cases hp : p.1 = j
    · have e1 : dictInsert j v (p :: rest) = (j, v) :: rest := by simp [dictInsert, hp]
      rw [e1]
      simp [dictKeys_cons, hp]
    · have e1 : dictInsert j v (p :: rest) = p :: dictInsert j v rest := by
        simp [dictInsert, hp]
      rw [e1]
      simp [dictKeys_cons, ih]
      tauto

theorem not_mem_dictKeys_erase {α : Type} (k : String) (d : List (String × α)) :
    k ∉ dictKeys (dictErase k d) := by
  simp only [dictKeys, dictErase, List.mem_map, List.mem_filter]
  rintro ⟨p, ⟨_, hne⟩, hk⟩
  exact absurd hk (by simpa using hne)

/-! ## Data model shared across services

`RecordingMode` transcribes the `RecordingMode` enum of
`app/models/camera.py`; `ScheduleSlot` transcribes `CameraSchedule` (with the
`datetime.time` wall-clock values modelled as naturals — e.g. seconds since
midnight — whose order is exactly the order on `datetime.time`). -/

inductive RecordingMode where
  | continuous
  | motion
  | events
  | none
  deriving DecidableEq, Repr

/-- The `.value` string of the `RecordingMode` enum. -/
def recordingModeValue : RecordingMode → String
  | .continuous => "continuous"
  | .motion => "motion"
  | .events => "events"
  | .none => "none"

structure ScheduleSlot where
  day_of_week : Nat
  start_time : Nat
  end_time : Nat
  mode : RecordingMode
  deriving DecidableEq, Repr

/-! ## Schedule Engine (`app/services/scheduler.py`) -/

/-- Transcription of `SchedulerService._find_applicable_mode`: walk the
camera's slots in stored order; a slot governs the current instant when its
day matches and the current time lies in its range, where `start <= end` is a
same-day range and `start > end` an overnight range. -/
def findApplicableMode (schedules : List ScheduleSlot) (currentDay currentTime : Nat) :
    Option RecordingMode :=
  match schedules with
  | [] => Option.none
  | s :: rest =>
    if s.day_of_week ≠ currentDay then findApplicableMode rest currentDay currentTime
    else if s.start_time ≤ s.end_time then
      if s.start_time ≤ currentTime ∧ currentTime ≤ s.end_time then some s.mode
      else findApplicableMode rest currentDay currentTime
    else
      if currentTime ≥ s.start_time ∨ currentTime ≤ s.end_time then some s.mode
      else findApplicableMode rest currentDay currentTime

/-- Modelled from the spec (section 4.4): a slot matches when its day-of-week
equals the current weekday and either `start ≤ t ≤ end` (same-day range) or,
when `start > end`, `t ≥ start OR t ≤ end` (overnight range). -/
def specSlotMatches (currentDay currentTime : Nat) (s : ScheduleSlot) : Bool :=
  s.day_of_week == currentDay &&
    (if s.start_time ≤ s.end_time then
      decide (s.start_time ≤ currentTime ∧ currentTime ≤ s.end_time)
    else
      decide (currentTime ≥ s.start_time ∨ currentTime ≤ s.end_time))

/-- Modelled from the spec (section 8): the brute-force reference scan, the
mode of the first matching slot in stored order, none when no slot matches. -/
def specReferenceScan (schedules : List ScheduleSlot) (currentDay currentTime : Nat) :
    Option RecordingMode :=
  (schedules.find? (specSlotMatches currentDay currentTime)).map ScheduleSlot.mode

/-- C1: the Schedule Engine's slot resolution equals the brute-force
first-match-in-order reference scan, for every slot list and every
(weekday, wall-clock time) pair; in particular it returns no mode exactly
when no slot matches. -/
theorem findApplicableMode_eq_specReferenceScan
    (schedules : List ScheduleSlot) (currentDay currentTime : Nat) :
    findApplicableMode schedules currentDay currentTime =
      specReferenceScan schedules currentDay currentTime := by
  induction schedules with
  | nil => rfl
  | cons s rest ih =>
    unfold specReferenceScan at ih ⊢
    by_cases hday : s.day_of_week = currentDay
    · by_cases hrange : s.start_time ≤ s.end_time
      · by_cases hin : s.start_time ≤ currentTime ∧ currentTime ≤ s.end_time
        · have hm : specSlotMatches currentDay currentTime s = true := by
            simp [specSlotMatches, hday, hrange, hin.1, hin.2]
          rw [List.find?_cons_of_pos _ hm]
          simp [findApplicableMode, hday, hrange, hin]
        · have hm : ¬(specSlotMatches currentDay currentTime s = true) := by
            simp [specSlotMatches, hday, hrange]
            omega
          rw [List.find?_cons_of_neg _ hm]
          simp only [findApplicableMode, hday, hrange, hin]
          simpa [hday, hrange, hin] using ih
      · by_cases hin : currentTime ≥ s.start_time ∨ currentTime ≤ s.end_time
        · have hm : specSlotMatches currentDay currentTime s = true := by
            simp [specSlotMatches, hday, hrange]
            tauto
          rw [List.find?_cons_of_pos _ hm]
          simp [findApplicableMode, hday, hrange, hin]
        · have hm : ¬(specSlotMatches currentDay currentTime s = true) := by
            simp [specSlotMatches, hday, hrange]
            omega
          rw [List.find?_cons_of_neg _ hm]
          simpa [findApplicableMode, hday, hrange, hin] using ih
    · have hm : ¬(specSlotMatches currentDay currentTime s = true) := by
        simp [specSlotMatches, hday]
      rw [List.find?_cons_of_neg _ hm]
      simpa [findApplicableMode, hday] using ih

/-- A camera row as the scheduler tick reads it: the `is_active` flag, the
stored recording mode, and the eagerly loaded schedule slots. -/
structure Camera where
  name : String
  is_active : Bool
  recording_mode : RecordingMode
  schedules : List ScheduleSlot
  deriving DecidableEq, Repr

/-- The per-camera body of `SchedulerService.check_and_apply_schedules`:
returns the camera row after the loop iteration together with the name
appended to `cameras_to_sync` when (and only when) the mode was written. -/
def tickCamera (currentDay currentTime : Nat) (cam : Camera) : Camera × Option String :=
  if cam.schedules = [] then (cam, Option.none)
  else
    match findApplicableMode cam.schedules currentDay currentTime with
    | Option.none => (cam, Option.none)
    | some m =>
      if cam.recording_mode = m then (cam, Option.none)
      else ({ cam with recording_mode := m }, some cam.name)

/-- Observable outcome of one scheduler tick: the store rows after the tick,
the collected change-set, the number of mode writes, and how many times each
of the two external effects (session commit, Frigate sync callback) ran. -/
structure TickRun where
  cameras : List Camera
  changed : List String
  updatedCount : Nat
  commits : Nat
  syncCalls : Nat
  deriving DecidableEq, Repr

/-- Transcription of `SchedulerService.check_and_apply_schedules`: the query
selects only active cameras (inactive rows are untouched), each active camera
runs `tickCamera`, the session commits once when any camera changed, and the
Frigate sync callback runs once when any camera changed and a callback is
set. -/
def checkAndApplySchedules (cams : List Camera) (currentDay currentTime : Nat)
    (hasCallback : Bool) : TickRun :=
  let results := cams.map fun c =>
    if c.is_active then tickCamera currentDay currentTime c else (c, Option.none)
  let changed := results.filterMap Prod.snd
  { cameras := results.map Prod.fst
    changed := changed
    updatedCount := changed.length
    commits := if 0 < changed.length then 1 else 0
    syncCalls := if 0 < changed.length ∧ hasCallback = true then 1 else 0 }

/-- C8: a camera whose resolved mode is absent or equal to its stored mode is
left untouched by the tick and is not collected into the change-set, and a
tick whose change-set is empty performs no session commit and makes no
Frigate sync callback call. -/
theorem tick_idempotent_no_write
    (currentDay currentTime : Nat) (cam : Camera) (cams : List Camera) (hasCallback : Bool) :
    ((findApplicableMode cam.schedules currentDay currentTime = Option.none ∨
      findApplicableMode cam.schedules currentDay currentTime = some cam.recording_mode) →
        tickCamera currentDay currentTime cam = (cam, Option.none)) ∧
    ((checkAndApplySchedules cams currentDay currentTime hasCallback).changed = [] →
      (checkAndApplySchedules cams currentDay currentTime hasCallback).commits = 0 ∧
      (checkAndApplySchedules cams currentDay currentTime hasCallback).syncCalls = 0) := by
  constructor
  · intro h
    unfold tickCamera
    by_cases hs : cam.schedules = []
    · simp [hs]
    · rcases h with h | h <;> simp [hs, h]
  · intro h
    have hc : (checkAndApplySchedules cams currentDay currentTime hasCallback).commits =
        if 0 < (checkAndApplySchedules cams currentDay currentTime hasCallback).changed.length
        then 1 else 0 := rfl
    have hs : (checkAndApplySchedules cams currentDay currentTime hasCallback).syncCalls =
        if 0 < (checkAndApplySchedules cams currentDay currentTime hasCallback).changed.length
            ∧ hasCallback = true
        then 1 else 0 := rfl
    rw [hc, hs, h]
    simp

/-- Concrete camera for the C8 witness: one Monday 08:00-17:00 slot whose mode
already equals the stored mode. -/
def tickWitnessCam : Camera :=
  { name := "lobby"
    is_active := true
    recording_mode := RecordingMode.motion
    schedules := [{ day_of_week := 0, start_time := 480, end_time := 1020,
                    mode := RecordingMode.motion }] }

/-- Witness for C8 at a concrete instant (Monday 08:20): the resolved mode
equals the stored one, so the camera row is untouched, nothing is committed,
and no sync callback runs. -/
theorem tick_idempotent_no_write_witness :
    tickCamera 0 500 tickWitnessCam = (tickWitnessCam, Option.none) ∧
    (checkAndApplySchedules [tickWitnessCam] 0 500 true).commits = 0 ∧
    (checkAndApplySchedules [tickWitnessCam] 0 500 true).syncCalls = 0 :=
  ⟨(tick_idempotent_no_write 0 500 tickWitnessCam [tickWitnessCam] true).1
      (Or.inr (by decide)),
   ((tick_idempotent_no_write 0 500 tickWitnessCam [tickWitnessCam] true).2 (by decide)).1,
   ((tick_idempotent_no_write 0 500 tickWitnessCam [tickWitnessCam] true).2 (by decide)).2⟩

/-! ## Stream Sync Engine (`app/services/stream_manager.py`) -/

/-! Python string primitives, modelled over the underlying character lists
(so that they reduce inside the kernel): `str.lower` (ASCII model),
single-character `str.replace`, `str.strip`, and `str.startswith`. -/

/-- Model of Python `str.lower` (ASCII). -/
def strToLower (s : String) : String :=
  String.mk (s.data.map Char.toLower)

/-- Model of Python `str.replace(a, b)` for single characters. -/
def strReplaceChar (a b : Char) (s : String) : String :=
  String.mk (s.data.map fun c => if c = a then b else c)

/-- Model of Python `str.strip()`: drop whitespace from both ends. -/
def strTrim (s : String) : String :=
  String.mk
    (List.reverse (List.dropWhile Char.isWhitespace
      (List.reverse (List.dropWhile Char.isWhitespace s.data))))

/-- Model of Python `str.startswith(pre)`. -/
def strStartsWith (s pre : String) : Bool :=
  pre.data.isPrefixOf s.data

/-- Transcription of `StreamManager._normalize_name`: lowercase, then replace
spaces and hyphens by underscores. -/
def smNormalizeName (name : String) : String :=
  strReplaceChar '-' '_' (strReplaceChar ' ' '_' (strToLower name))

/-- The fixed text of the ffmpeg pipeline that `_convert_url_for_go2rtc`
builds around an HTTP source URL, up to the interpolated URL. -/
def httpTranscodePre : String :=
  "exec:ffmpeg -hide_banner -loglevel error -i "

/-- The fixed text of the ffmpeg pipeline that `_convert_url_for_go2rtc`
builds around an HTTP source URL, after the interpolated URL: software
libx264 encode, superfast preset, zerolatency tune, crf 23, bitrate capped at
2M, keyframe interval 30. -/
def httpTranscodePost : String :=
  " -c:v libx264 -preset superfast -tune zerolatency -crf 23 -maxrate 2M -bufsize 4M -g 30 -f mpegts -"

/-- The full ffmpeg command `_convert_url_for_go2rtc` produces for an HTTP
source URL. -/
def httpTranscodeCmd (url : String) : String :=
  httpTranscodePre ++ url ++ httpTranscodePost

/-- Transcription of `StreamManager._convert_url_for_go2rtc`: strip the URL;
pass `exec:`/`ffmpeg:`-tagged strings and `rtsp://`/`rtsps://` URLs through
unmodified; wrap `http://`/`https://` URLs in the software transcode
pipeline; return anything else as-is. -/
def convertUrlForGo2rtc (url : String) : String :=
  let u := strTrim url
  if strStartsWith u "exec:" || strStartsWith u "ffmpeg:" then u
  else if strStartsWith u "rtsp://" || strStartsWith u "rtsps://" then u
  else if strStartsWith u "http://" || strStartsWith u "https://" then httpTranscodeCmd u
  else u

/-- Transcription of `StreamManager._get_optimized_ffmpeg_cmd`, the
tier-specific pipeline builder (sub tier downscaled to 640 px and capped at
500k, main tier full resolution capped at 4M).  No caller in the source ever
invokes it. -/
def getOptimizedFfmpegCmd (url quality : String) : String :=
  if quality = "sub" then
    "exec:ffmpeg -hide_banner -loglevel error -i " ++ url ++
      " -c:v libx264 -preset ultrafast -tune zerolatency -vf scale=640:-2 -crf 28 -maxrate 500k -bufsize 1M -g 30 -f mpegts -"
  else
    "exec:ffmpeg -hide_banner -loglevel error -i " ++ url ++
      " -c:v libx264 -preset superfast -tune zerolatency -crf 23 -maxrate 4M -bufsize 8M -g 30 -f mpegts -"

/-- The pure part of `StreamManager.register_stream`: the two stream ids and
the two converted URLs it registers with go2rtc. -/
structure RegisterConv where
  mainStreamId : String
  subStreamId : String
  mainGo2rtcUrl : String
  subGo2rtcUrl : String
  deriving DecidableEq, Repr

/-- Transcription of the id and URL computation at the top of
`StreamManager.register_stream`; Python's `sub_stream_url or main_stream_url`
falls back to the main URL when the sub URL is missing or empty. -/
def registerStreamConv (name mainStreamUrl : String) (subStreamUrl : Option String) :
    RegisterConv :=
  let normalizedName := smNormalizeName name
  let subUrl := match subStreamUrl with
    | some s => if s = "" then mainStreamUrl else s
    | Option.none => mainStreamUrl
  { mainStreamId := normalizedName ++ "_main"
    subStreamId := normalizedName ++ "_sub"
    mainGo2rtcUrl := convertUrlForGo2rtc mainStreamUrl
    subGo2rtcUrl := convertUrlForGo2rtc subUrl }

/-- A producer entry of the go2rtc `GET /api/streams` catalog; only its
`recv` byte counter is consulted by the source. -/
structure Producer where
  recv : Nat
  deriving DecidableEq, Repr

/-- A stream entry of the go2rtc catalog. -/
structure StreamInfo where
  producers : List Producer
  deriving DecidableEq, Repr

/-- Status classification produced by `StreamManager.check_stream_status`
(the detail strings of the source are dropped; only the classification is
modelled). -/
inductive StreamStatus where
  | online
  | connecting
  | offline
  | unknown
  deriving DecidableEq, Repr

/-- Transcription of `StreamManager.check_stream_status`: query the relay
catalog (`Option.none` models an unreachable relay, otherwise a status code
plus catalog) and classify the camera's `_sub` stream. -/
def checkStreamStatus (name : String)
    (resp : Option (Nat × List (String × StreamInfo))) : StreamStatus :=
  match resp with
  | Option.none => StreamStatus.unknown
  | some (statusCode, streams) =>
    if statusCode ≠ 200 then StreamStatus.unknown
    else
      match dictLookup (smNormalizeName name ++ "_sub") streams with
      | Option.none => StreamStatus.offline
      | some info =>
        if info.producers = [] then StreamStatus.offline
        else if info.producers.any fun p => 0 < p.recv then StreamStatus.online
        else StreamStatus.connecting

/-! ## Stream Probe (`StreamManager.test_stream_connection`) -/

/-- The distinct failure reasons of `test_stream_connection`. -/
inductive ProbeReason where
  | registerFailed
  | relayNotResponding (code : Nat)
  | notFoundAfterRegister
  | noProducers
  | noData
  | timeout
  | networkError (msg : String)
  | unexpected (msg : String)
  deriving DecidableEq, Repr

/-- The reported result of `test_stream_connection`. -/
inductive ProbeResult where
  | success (recvBytes : Nat)
  | failure (reason : ProbeReason)
  deriving DecidableEq, Repr

/-- Oracle for the registration phase of `test_stream_connection` (the
`_get_config` read plus the `_patch_config` write): an exception raised by
either call, a patch rejected by go2rtc, or success. -/
inductive RegPhase where
  | raiseTimeout
  | raiseNet (msg : String)
  | raiseOther (msg : String)
  | patchRejected
  | ok
  deriving DecidableEq, Repr

/-- Oracle for the status-check phase (the `GET /api/streams` after the
sleep), reached only when registration succeeded: an exception, or a response
with status code and stream catalog. -/
inductive CheckPhase where
  | raiseTimeout
  | raiseNet (msg : String)
  | raiseOther (msg : String)
  | response (code : Nat) (catalog : List (String × StreamInfo))
  deriving DecidableEq, Repr

/-- The result classification of `test_stream_connection`: the `try` body
merged with its `except` clauses (`httpx.TimeoutException` to a timeout
failure, `httpx.RequestError` to a network failure, bare `Exception` to an
unexpected failure). -/
def probeOutcome (tempId : String) (reg : RegPhase) (chk : CheckPhase) : ProbeResult :=
  match reg with
  | RegPhase.raiseTimeout => ProbeResult.failure ProbeReason.timeout
  | RegPhase.raiseNet m => ProbeResult.failure (ProbeReason.networkError m)
  | RegPhase.raiseOther m => ProbeResult.failure (ProbeReason.unexpected m)
  | RegPhase.patchRejected => ProbeResult.failure ProbeReason.registerFailed
  | RegPhase.ok =>
    match chk with
    | CheckPhase.raiseTimeout => ProbeResult.failure ProbeReason.timeout
    | CheckPhase.raiseNet m => ProbeResult.failure (ProbeReason.networkError m)
    | CheckPhase.raiseOther m => ProbeResult.failure (ProbeReason.unexpected m)
    | CheckPhase.response code catalog =>
      if code ≠ 200 then ProbeResult.failure (ProbeReason.relayNotResponding code)
      else
        match dictLookup tempId catalog with
        | Option.none => ProbeResult.failure ProbeReason.notFoundAfterRegister
        | some info =>
          if info.producers = [] then ProbeResult.failure ProbeReason.noProducers
          else
            match info.producers.find? fun p => 0 < p.recv with
            | some p => ProbeResult.success p.recv
            | Option.none => ProbeResult.failure ProbeReason.noData

/-- The `finally` block of `test_stream_connection`: re-read the durable
config, delete the probe id when present, and re-patch.  `cleanupOk = false`
models an exception anywhere inside the cleanup, which the source catches and
logs, leaving the config as it was. -/
def probeCleanup (tempId : String) (cleanupOk : Bool)
    (cfg : List (String × String)) : List (String × String) :=
  if cleanupOk then
    if tempId ∈ dictKeys cfg then dictErase tempId cfg else cfg
  else cfg

/-- Transcription of `StreamManager.test_stream_connection` over the durable
relay config: the probe entry is added exactly when the registration phase
succeeds, the result is classified by `probeOutcome`, and the `finally`
cleanup runs on every path.  Returns the reported result together with the
durable config after the call. -/
def testStreamConnection (cfg : List (String × String)) (tempId streamUrl : String)
    (reg : RegPhase) (chk : CheckPhase) (cleanupOk : Bool) :
    ProbeResult × List (String × String) :=
  let cfgAfterRegister :=
    if reg = RegPhase.ok then dictInsert tempId streamUrl cfg else cfg
  (probeOutcome tempId reg chk, probeCleanup tempId cleanupOk cfgAfterRegister)

/-- C2: on every exit path of the connection test — every registration-phase
and check-phase outcome — the reported result does not depend on whether the
cleanup step fails (a cleanup failure is only logged), and whenever the
cleanup step does not fail the ephemeral probe id is absent from the durable
relay config when the call returns. -/
theorem testStreamConnection_cleanup
    (cfg : List (String × String)) (tempId streamUrl : String)
    (reg : RegPhase) (chk : CheckPhase) (cleanupOk : Bool) :
    (testStreamConnection cfg tempId streamUrl reg chk cleanupOk).1 =
      (testStreamConnection cfg tempId streamUrl reg chk true).1 ∧
    tempId ∉ dictKeys (testStreamConnection cfg tempId streamUrl reg chk true).2 := by
  refine ⟨rfl, ?_⟩
  show tempId ∉ dictKeys (probeCleanup tempId true
    (if reg = RegPhase.ok then dictInsert tempId streamUrl cfg else cfg))
  unfold probeCleanup
  by_cases h : tempId ∈
      dictKeys (if reg = RegPhase.ok then dictInsert tempId streamUrl cfg else cfg)
  · simp [h, not_mem_dictKeys_erase]
  · simp [h]

/-- C5 counterexample: for the HTTP URL `http://192.0.2.5/video`,
`register_stream` gives the sub tier exactly the same pipeline as the main
tier (not the downscaled, rate-limited sub pipeline of
`_get_optimized_ffmpeg_cmd`, which no caller invokes), and the non-HTTP
non-RTSP scheme `udp://` is passed through unmodified rather than wrapped. -/
theorem registerStream_tier_counterexample :
    (registerStreamConv "Front Door" "http://192.0.2.5/video" Option.none).subGo2rtcUrl =
      (registerStreamConv "Front Door" "http://192.0.2.5/video" Option.none).mainGo2rtcUrl ∧
    (registerStreamConv "Front Door" "http://192.0.2.5/video" Option.none).subGo2rtcUrl ≠
      getOptimizedFfmpegCmd "http://192.0.2.5/video" "sub" ∧
    convertUrlForGo2rtc "udp://192.0.2.5:1234/stream" = "udp://192.0.2.5:1234/stream" := by
  refine ⟨by decide, by decide, by decide⟩

/-- C5 amended: `register_stream` converts both tiers with the same function
`_convert_url_for_go2rtc` (the sub tier falling back to the main URL when
absent); that function passes `exec:`/`ffmpeg:`-tagged strings, the relay's
native `rtsp://`/`rtsps://` transport, and any unrecognized scheme through
unmodified, and wraps exactly the `http://`/`https://` schemes in the single
software transcode pipeline `httpTranscodeCmd` — identical for both tiers,
with bounded keyframe interval and bitrate cap in its fixed tail. -/
theorem registerStream_uri_classification
    (name mainStreamUrl : String) (subStreamUrl : Option String) (u : String) :
    (registerStreamConv name mainStreamUrl subStreamUrl).mainGo2rtcUrl =
        convertUrlForGo2rtc mainStreamUrl ∧
    (registerStreamConv name mainStreamUrl Option.none).subGo2rtcUrl =
        convertUrlForGo2rtc mainStreamUrl ∧
    ((strStartsWith (strTrim u) "exec:" || strStartsWith (strTrim u) "ffmpeg:") = true →
        convertUrlForGo2rtc u = strTrim u) ∧
    ((strStartsWith (strTrim u) "exec:" || strStartsWith (strTrim u) "ffmpeg:") = false →
     (strStartsWith (strTrim u) "rtsp://" || strStartsWith (strTrim u) "rtsps://") = true →
        convertUrlForGo2rtc u = strTrim u) ∧
    ((strStartsWith (strTrim u) "exec:" || strStartsWith (strTrim u) "ffmpeg:") = false →
     (strStartsWith (strTrim u) "rtsp://" || strStartsWith (strTrim u) "rtsps://") = false →
     (strStartsWith (strTrim u) "http://" || strStartsWith (strTrim u) "https://") = false →
        convertUrlForGo2rtc u = strTrim u) ∧
    ((strStartsWith (strTrim u) "exec:" || strStartsWith (strTrim u) "ffmpeg:") = false →
     (strStartsWith (strTrim u) "rtsp://" || strStartsWith (strTrim u) "rtsps://") = false →
     (strStartsWith (strTrim u) "http://" || strStartsWith (strTrim u) "https://") = true →
        convertUrlForGo2rtc u = httpTranscodePre ++ strTrim u ++ httpTranscodePost) := by
  refine ⟨rfl, rfl, ?_, ?_, ?_, ?_⟩
  · intro h1
    simp [convertUrlForGo2rtc, h1]
  · intro h1 h2
    simp [convertUrlForGo2rtc, h1, h2]
  · intro h1 h2 h3
    simp [convertUrlForGo2rtc, h1, h2, h3]
  · intro h1 h2 h3
    simp [convertUrlForGo2rtc, h1, h2, h3, httpTranscodeCmd]

/-- Witness for the amended C5 classification at concrete URLs: an RTSP URL
passes through unmodified and an HTTP URL is wrapped in the single transcode
pipeline. -/
theorem registerStream_uri_classification_witness :
    convertUrlForGo2rtc "rtsp://cam.example/live" = "rtsp://cam.example/live" ∧
    convertUrlForGo2rtc "http://cam.example/mjpeg" =
      httpTranscodePre ++ "http://cam.example/mjpeg" ++ httpTranscodePost := by
  have e1 : strTrim "rtsp://cam.example/live" = "rtsp://cam.example/live" := by decide
  have e2 : strTrim "http://cam.example/mjpeg" = "http://cam.example/mjpeg" := by decide
  constructor
  · have h := (registerStream_uri_classification "c" "u" Option.none
      "rtsp://cam.example/live").2.2.2.1 (by decide) (by decide)
    rw [e1] at h
    exact h
  · have h := (registerStream_uri_classification "c" "u" Option.none
      "http://cam.example/mjpeg").2.2.2.2.2 (by decide) (by decide) (by decide)
    rw [e2] at h
    exact h

/-- C10: the status classification of `check_stream_status` depends only on
the `_sub` stream id's entry in the relay catalog — two catalogs agreeing on
that entry classify identically — and a catalog whose `_sub` entry has no
producers classifies as offline no matter what the `_main` entry reports. -/
theorem checkStreamStatus_only_sub
    (name : String) (code : Nat) (cat1 cat2 : List (String × StreamInfo)) :
    (dictLookup (smNormalizeName name ++ "_sub") cat1 =
        dictLookup (smNormalizeName name ++ "_sub") cat2 →
      checkStreamStatus name (some (code, cat1)) =
        checkStreamStatus name (some (code, cat2))) ∧
    (dictLookup (smNormalizeName name ++ "_sub") cat1 = some { producers := [] } →
      checkStreamStatus name (some (200, cat1)) = StreamStatus.offline) := by
  constructor
  · intro h
    simp only [checkStreamStatus]
    rw [h]
  · intro h
    simp only [checkStreamStatus]
    rw [h]
    simp

/-- Concrete catalog for the C10 witness: the main stream is producing bytes
while the sub stream has an entry with no producers. -/
def c10CatalogBoth : List (String × StreamInfo) :=
  [("gate_main", { producers := [{ recv := 4096 }] }),
   ("gate_sub", { producers := [] })]

/-- Concrete catalog for the C10 witness: only the sub entry, no producers. -/
def c10CatalogSubOnly : List (String × StreamInfo) :=
  [("gate_sub", { producers := [] })]

/-- Witness for C10: a camera whose main stream is receiving bytes but whose
sub stream has no producers is classified offline, and dropping the main
entry entirely does not change the classification. -/
theorem checkStreamStatus_only_sub_witness :
    checkStreamStatus "Gate" (some (200, c10CatalogBoth)) =
      checkStreamStatus "Gate" (some (200, c10CatalogSubOnly)) ∧
    checkStreamStatus "Gate" (some (200, c10CatalogBoth)) = StreamStatus.offline :=
  ⟨(checkStreamStatus_only_sub "Gate" 200 c10CatalogBoth c10CatalogSubOnly).1 (by decide),
   (checkStreamStatus_only_sub "Gate" 200 c10CatalogBoth c10CatalogSubOnly).2 (by decide)⟩

/-! ## Config Reconciler (`app/services/config_generator.py`) -/

/-- Default of the `FRIGATE_CONFIG_PATH` environment read. -/
def FRIGATE_CONFIG_PATH : String := "/config/frigate.yml"

/-- Default of the `FRIGATE_URL` environment read. -/
def FRIGATE_API_URL : String := "http://frigate:5000"

/-- The module constant `GO2RTC_RTSP_URL`. -/
def GO2RTC_RTSP_URL : String := "rtsp://go2rtc:8554"

/-- Transcription of the module dict `RECORDING_MODE_MAP` together with the
`.get(recording_mode, "motion")` default applied at its only read site in
`_generate_camera_config`. -/
def RECORDING_MODE_MAP (recordingMode : String) : String :=
  if recordingMode = "continuous" then "all"
  else if recordingMode = "motion" then "motion"
  else if recordingMode = "events" then "active_objects"
  else "motion"

/-- Transcription of `FrigateConfigGenerator._normalize_name`. -/
def cgNormalizeName (name : String) : String :=
  strReplaceChar '-' '_' (strReplaceChar ' ' '_' (strToLower name))

structure FfmpegInput where
  path : String
  roles : List String
  deriving DecidableEq, Repr

structure RetainCfg where
  days : Nat
  mode : String
  deriving DecidableEq, Repr

/-- The Frigate `record:` section shape, shared by the global defaults and
the per-camera entries. -/
structure RecordSection where
  enabled : Bool
  retain : RetainCfg
  alertsRetainDays : Nat
  detectionsRetainDays : Nat
  deriving DecidableEq, Repr

structure CamDetectCfg where
  enabled : Bool
  width : Nat
  height : Nat
  fps : Nat
  deriving DecidableEq, Repr

structure CamSnapshotsCfg where
  enabled : Bool
  retainDefaultDays : Nat
  deriving DecidableEq, Repr

/-- A per-camera entry of the generated Frigate document. -/
structure CamCfg where
  enabled : Bool
  ffmpegInputs : List FfmpegInput
  detect : CamDetectCfg
  record : RecordSection
  snapshots : CamSnapshotsCfg
  objectsTrack : List String
  zones : Option String
  deriving DecidableEq, Repr

/-- Transcription of `FrigateConfigGenerator._generate_camera_config`: sub
stream bound to the detect role, main stream to the record role, retention
derived from the recording mode through `RECORDING_MODE_MAP` with the
camera's retention days as window; `objects or ["person"]` and the zone
truthiness check are modelled on the last two fields. -/
def genCameraConfig (name : String) (retentionDays : Nat) (recordingMode : String)
    (eventRetentionDays : Nat) (detectWidth detectHeight detectFps : Nat)
    (objects : List String) (zonesConfig : Option String) : CamCfg :=
  { enabled := true
    ffmpegInputs :=
      [{ path := GO2RTC_RTSP_URL ++ "/" ++ cgNormalizeName name ++ "_sub"
         roles := ["detect"] },
       { path := GO2RTC_RTSP_URL ++ "/" ++ cgNormalizeName name ++ "_main"
         roles := ["record"] }]
    detect := { enabled := true, width := detectWidth, height := detectHeight,
                fps := detectFps }
    record := { enabled := true
                retain := { days := retentionDays,
                            mode := RECORDING_MODE_MAP recordingMode }
                alertsRetainDays := eventRetentionDays
                detectionsRetainDays := eventRetentionDays }
    snapshots := { enabled := true, retainDefaultDays := eventRetentionDays }
    objectsTrack := if objects = [] then ["person"] else objects
    zones := match zonesConfig with
      | some z => if z = "" then Option.none else some z
      | Option.none => Option.none }

structure MqttCfg where
  enabled : Bool
  host : String
  port : Nat
  topicPref : String
  clientId : String
  deriving DecidableEq, Repr

structure DetectorCfg where
  detectorType : String
  numThreads : Nat
  deriving DecidableEq, Repr

structure ModelCfg where
  width : Nat
  height : Nat
  deriving DecidableEq, Repr

structure GlobalSnapshotsCfg where
  enabled : Bool
  timestamp : Bool
  boundingBox : Bool
  retainDefaultDays : Nat
  deriving DecidableEq, Repr

structure PersonFilterCfg where
  minScore : Rat
  threshold : Rat
  deriving DecidableEq, Repr

structure ObjectsCfg where
  track : List String
  personFilter : PersonFilterCfg
  deriving DecidableEq, Repr

structure LoggerCfg where
  defaultLevel : String
  logs : List (String × String)
  deriving DecidableEq, Repr

/-- The full generated Frigate document: the base sections of
`_get_base_config` plus the per-camera map and the go2rtc stream map. -/
structure FrigateDoc where
  version : String
  mqtt : MqttCfg
  detectors : List (String × DetectorCfg)
  databasePath : String
  modelCfg : ModelCfg
  record : RecordSection
  snapshots : GlobalSnapshotsCfg
  detectEnabled : Bool
  objects : ObjectsCfg
  go2rtcStreams : List (String × String)
  uiTimezone : String
  loggerCfg : LoggerCfg
  cameras : List (String × CamCfg)
  deriving DecidableEq, Repr

/-- Transcription of `FrigateConfigGenerator._get_base_config`. -/
def getBaseConfig : FrigateDoc :=
  { version := "0.14"
    mqtt := { enabled := true, host := "mqtt", port := 1883,
              topicPref := "frigate", clientId := "frigate" }
    detectors := [("cpu1", { detectorType := "cpu", numThreads := 2 })]
    databasePath := "/media/frigate/frigate.db"
    modelCfg := { width := 320, height := 320 }
    record := { enabled := true, retain := { days := 7, mode := "motion" },
                alertsRetainDays := 14, detectionsRetainDays := 14 }
    snapshots := { enabled := true, timestamp := true, boundingBox := true,
                   retainDefaultDays := 14 }
    detectEnabled := true
    objects := { track := ["person", "car", "dog", "cat"],
                 personFilter := { minScore := 0.5, threshold := 0.7 } }
    go2rtcStreams := []
    uiTimezone := "America/Argentina/Buenos_Aires"
    loggerCfg := { defaultLevel := "info", logs := [("frigate.event", "debug")] }
    cameras := [] }

/-- A camera dict as handed to the config generator: the keys built by
`sync_all_to_frigate` (always present) together with the optional detection
keys that `generate_config` reads with `.get` defaults. -/
structure CameraDict where
  name : String
  is_active : Bool
  main_stream_url : String
  sub_stream_url : Option String
  retention_days : Nat
  recording_mode : RecordingMode
  event_retention_days : Nat
  zones_config : Option String
  detect_width : Option Nat
  detect_height : Option Nat
  detect_fps : Option Nat
  objects : Option (List String)
  deriving DecidableEq, Repr

/-- The call `generate_config` makes into `_generate_camera_config` for one
camera dict, with every `.get` default applied (the recording mode coerced
through `.value` when it is the enum). -/
def camConfigOf (c : CameraDict) : CamCfg :=
  genCameraConfig c.name c.retention_days (recordingModeValue c.recording_mode)
    c.event_retention_days (c.detect_width.getD 1280) (c.detect_height.getD 720)
    (c.detect_fps.getD 5) (c.objects.getD ["person"]) c.zones_config

/-- The camera loop of `generate_config`: skip inactive and unnamed cameras;
for each remaining camera assign its entry into the cameras dict and its two
stream URLs into the go2rtc streams dict (sub first, then main). -/
def buildCamerasAndStreams : List CameraDict → List (String × CamCfg) →
    List (String × String) → List (String × CamCfg) × List (String × String)
  | [], camAcc, strAcc => (camAcc, strAcc)
  | c :: rest, camAcc, strAcc =>
    if c.is_active = false then buildCamerasAndStreams rest camAcc strAcc
    else if c.name = "" then buildCamerasAndStreams rest camAcc strAcc
    else
      buildCamerasAndStreams rest
        (dictInsert (cgNormalizeName c.name) (camConfigOf c) camAcc)
        (dictInsert (cgNormalizeName c.name ++ "_main")
          (GO2RTC_RTSP_URL ++ "/" ++ cgNormalizeName c.name ++ "_main")
          (dictInsert (cgNormalizeName c.name ++ "_sub")
            (GO2RTC_RTSP_URL ++ "/" ++ cgNormalizeName c.name ++ "_sub") strAcc))

/-- Transcription of `FrigateConfigGenerator.generate_config`. -/
def generateConfig (cameras : List CameraDict) : FrigateDoc :=
  { getBaseConfig with
      cameras := (buildCamerasAndStreams cameras [] []).1
      go2rtcStreams := (buildCamerasAndStreams cameras [] []).2 }

/-- The fixed header comment `write_config` puts before the YAML body. -/
def frigateConfigHeader : String :=
  "# TitanNVR - Frigate Configuration\n# Auto-generated - DO NOT EDIT MANUALLY\n# Changes will be overwritten when cameras are modified\n\n"

/-- Stand-in for the `yaml.dump` call of `write_config`: `yaml.dump` with
fixed options is an external deterministic pure function of the document
value, so a deterministic structural rendering models its output bytes. -/
def yamlDump (doc : FrigateDoc) : String :=
  toString (repr doc)

/-- The file content `write_config` writes for a given camera set: fixed
header plus serialized document. -/
def writeConfigText (cameras : List CameraDict) : String :=
  frigateConfigHeader ++ yamlDump (generateConfig cameras)

/-- C3: the generated configuration document is a pure, deterministic
function of the camera set: value-equal camera sets yield byte-identical file
content, and that content is the fixed input-independent header followed by
the serialized document (so the bodies are byte-identical whether or not the
header is excluded from the comparison). -/
theorem generateConfig_deterministic (cams1 cams2 : List CameraDict)
    (h : cams1 = cams2) :
    writeConfigText cams1 = writeConfigText cams2 ∧
    writeConfigText cams1 = frigateConfigHeader ++ yamlDump (generateConfig cams1) := by
  subst h
  exact ⟨rfl, rfl⟩

/-- Concrete camera dict shared by the reconciler witnesses: the spec's
"Front Door" scenario, mode=motion, retention 7 days. -/
def frontDoorCam : CameraDict :=
  { name := "Front Door"
    is_active := true
    main_stream_url := "rtsp://192.0.2.9/main"
    sub_stream_url := Option.none
    retention_days := 7
    recording_mode := RecordingMode.motion
    event_retention_days := 14
    zones_config := Option.none
    detect_width := Option.none
    detect_height := Option.none
    detect_fps := Option.none
    objects := Option.none }

/-- Witness for C3 at a concrete one-camera set. -/
theorem generateConfig_deterministic_witness :
    writeConfigText [frontDoorCam] = writeConfigText [frontDoorCam] ∧
    writeConfigText [frontDoorCam] =
      frigateConfigHeader ++ yamlDump (generateConfig [frontDoorCam]) :=
  generateConfig_deterministic [frontDoorCam] [frontDoorCam] rfl

/-- The normalized names of the cameras that the `generate_config` loop does
not skip, in iteration order. -/
def activeNormNames (cams : List CameraDict) : List String :=
  (cams.filter fun c => c.is_active && (c.name != "")).map fun c => cgNormalizeName c.name

theorem buildCameras_cons_skip (c : CameraDict) (rest : List CameraDict)
    (camAcc : List (String × CamCfg)) (strAcc : List (String × String))
    (h : c.is_active = false ∨ c.name = "") :
    buildCamerasAndStreams (c :: rest) camAcc strAcc =
      buildCamerasAndStreams rest camAcc strAcc := by
  rcases h with h | h
  · simp [buildCamerasAndStreams, h]
  · simp [buildCamerasAndStreams, h]

theorem buildCameras_cons_active (c : CameraDict) (rest : List CameraDict)
    (camAcc : List (String × CamCfg)) (strAcc : List (String × String))
    (ha : c.is_active = true) (hb : c.name ≠ "") :
    buildCamerasAndStreams (c :: rest) camAcc strAcc =
      buildCamerasAndStreams rest
        (dictInsert (cgNormalizeName c.name) (camConfigOf c) camAcc)
        (dictInsert (cgNormalizeName c.name ++ "_main")
          (GO2RTC_RTSP_URL ++ "/" ++ cgNormalizeName c.name ++ "_main")
          (dictInsert (cgNormalizeName c.name ++ "_sub")
            (GO2RTC_RTSP_URL ++ "/" ++ cgNormalizeName c.name ++ "_sub") strAcc)) := by
  simp [buildCamerasAndStreams, ha, hb]

theorem activeNormNames_cons_skip (c : CameraDict) (rest : List CameraDict)
    (h : c.is_active = false ∨ c.name = "") :
    activeNormNames (c :: rest) = activeNormNames rest := by
  rcases h with h | h
  · simp [activeNormNames, h]
  · simp [activeNormNames, h]

theorem activeNormNames_cons_active (c : CameraDict) (rest : List CameraDict)
    (ha : c.is_active = true) (hb : c.name ≠ "") :
    activeNormNames (c :: rest) = cgNormalizeName c.name :: activeNormNames rest := by
  simp [activeNormNames, ha, hb]

theorem mem_activeNormNames (cams : List CameraDict) (cam : CameraDict)
    (hmem : cam ∈ cams) (ha : cam.is_active = true) (hb : cam.name ≠ "") :
    cgNormalizeName cam.name ∈ activeNormNames cams := by
  simp only [activeNormNames, List.mem_map, List.mem_filter]
  exact ⟨cam, ⟨hmem, by simp [ha, hb]⟩, rfl⟩

theorem buildCameras_lookup_skip (cams : List CameraDict) (k : String)
    (camAcc : List (String × CamCfg)) (strAcc : List (String × String))
    (hk : k ∉ activeNormNames cams) :
    dictLookup k (buildCamerasAndStreams cams camAcc strAcc).1 = dictLookup k camAcc := by
  induction cams generalizing camAcc strAcc with
  | nil => rfl
  | cons c rest ih =>
    by_cases hskip : c.is_active = false ∨ c.name = ""
    · rw [buildCameras_cons_skip c rest camAcc strAcc hskip]
      rw [activeNormNames_cons_skip c rest hskip] at hk
      exact ih _ _ hk
    · push_neg at hskip
      have ha : c.is_active = true := by
        revert hskip
        cases c.is_active <;> simp
      have hb : c.name ≠ "" := hskip.2
      rw [buildCameras_cons_active c rest camAcc strAcc ha hb]
      rw [activeNormNames_cons_active c rest ha hb] at hk
      have hk1 : k ≠ cgNormalizeName c.name := fun he => hk (he ▸ List.mem_cons_self _ _)
      have hk2 : k ∉ activeNormNames rest := fun he => hk (List.mem_cons_of_mem _ he)
      rw [ih _ _ hk2]
      exact dictLookup_insert_of_ne k (cgNormalizeName c.name) (camConfigOf c) camAcc
        (fun he => hk1 he.symm)

theorem buildCameras_lookup (cams : List CameraDict) (cam : CameraDict)
    (camAcc : List (String × CamCfg)) (strAcc : List (String × String))
    (hmem : cam ∈ cams) (ha : cam.is_active = true) (hb : cam.name ≠ "")
    (hnodup : (activeNormNames cams).Nodup)
    (hacc : cgNormalizeName cam.name ∉ dictKeys camAcc) :
    dictLookup (cgNormalizeName cam.name) (buildCamerasAndStreams cams camAcc strAcc).1 =
      some (camConfigOf cam) := by
  induction cams generalizing camAcc strAcc with
  | nil => cases hmem
  | cons c rest ih =>
    by_cases hskip : c.is_active = false ∨ c.name = ""
    · have hmem2 : cam ∈ rest := by
        rcases List.mem_cons.mp hmem with rfl | hm
        · rcases hskip with h | h
          · rw [ha] at h
            cases h
          · exact absurd h hb
        · exact hm
      rw [buildCameras_cons_skip c rest camAcc strAcc hskip]
      rw [activeNormNames_cons_skip c rest hskip] at hnodup
      exact ih _ _ hmem2 hnodup hacc
    · push_neg at hskip
      have hca : c.is_active = true := by
        revert hskip
        cases c.is_active <;> simp
      have hcb : c.name ≠ "" := hskip.2
      rw [buildCameras_cons_active c rest camAcc strAcc hca hcb]
      rw [activeNormNames_cons_active c rest hca hcb] at hnodup
      have hnd := List.nodup_cons.mp hnodup
      rcases List.mem_cons.mp hmem with rfl | hm
      · rw [buildCameras_lookup_skip rest (cgNormalizeName cam.name) _ _ hnd.1]
        exact dictLookup_insert_self _ _ _
      · have hne : cgNormalizeName c.name ≠ cgNormalizeName cam.name := by
          intro he
          exact hnd.1 (he ▸ mem_activeNormNames rest cam hm ha hb)
        have hacc2 : cgNormalizeName cam.name ∉
            dictKeys (dictInsert (cgNormalizeName c.name) (camConfigOf c) camAcc) := by
          rw [mem_dictKeys_insert]
          rintro (he | he)
          · exact hne he.symm
          · exact hacc he
        exact ih _ _ hm hnd.2 hacc2

/-- C4: for every camera that the generator does not skip (active, named,
with normalized names unique across the set), the generated document holds
that camera's entry, whose retention policy is the camera's retention-days
window with the retain mode obtained from the recording mode through the
fixed three-way mapping continuous to all, motion to motion, events to
active_objects. -/
theorem generateConfig_retention (cams : List CameraDict) (cam : CameraDict)
    (hmem : cam ∈ cams) (ha : cam.is_active = true) (hb : cam.name ≠ "")
    (hnodup : (activeNormNames cams).Nodup) :
    dictLookup (cgNormalizeName cam.name) (generateConfig cams).cameras =
      some (camConfigOf cam) ∧
    (camConfigOf cam).record.retain.days = cam.retention_days ∧
    (camConfigOf cam).record.retain.mode =
      RECORDING_MODE_MAP (recordingModeValue cam.recording_mode) ∧
    RECORDING_MODE_MAP "continuous" = "all" ∧
    RECORDING_MODE_MAP "motion" = "motion" ∧
    RECORDING_MODE_MAP "events" = "active_objects" := by
  refine ⟨?_, rfl, rfl, by decide, by decide, by decide⟩
  have he : (generateConfig cams).cameras = (buildCamerasAndStreams cams [] []).1 := rfl
  rw [he]
  exact buildCameras_lookup cams cam [] [] hmem ha hb hnodup (by simp [dictKeys])

/-- Witness for C4: the "Front Door" scenario — mode motion, retention 7
days — yields a motion-triggered retention policy with a 7-day window. -/
theorem generateConfig_retention_witness :
    dictLookup (cgNormalizeName "Front Door") (generateConfig [frontDoorCam]).cameras =
      some (camConfigOf frontDoorCam) ∧
    (camConfigOf frontDoorCam).record.retain.days = 7 ∧
    (camConfigOf frontDoorCam).record.retain.mode = "motion" := by
  obtain ⟨h1, h2, h3, _, _, _⟩ := generateConfig_retention [frontDoorCam] frontDoorCam
    (List.mem_singleton.mpr rfl) rfl (by decide) (by decide)
  exact ⟨h1, h2, h3.trans (by decide)⟩

/-! ## Apply: write plus restart (`sync_cameras`, `restart_frigate`) -/

/-- Outcome oracle for the `POST /api/restart` call of `restart_frigate`. -/
inductive FrigateHttp where
  | status (code : Nat)
  | connectError
  | otherError (msg : String)
  deriving DecidableEq, Repr

/-- The status dict `restart_frigate` returns. -/
structure RestartResult where
  status : String
  message : String
  deriving DecidableEq, Repr

/-- Transcription of `FrigateConfigGenerator.restart_frigate`. -/
def restartFrigate (o : FrigateHttp) : RestartResult :=
  match o with
  | FrigateHttp.status code =>
    if code = 200 then { status := "ok", message := "Frigate restart initiated" }
    else { status := "warning", message := "Restart returned status " ++ toString code }
  | FrigateHttp.connectError => { status := "unavailable", message := "Frigate not running" }
  | FrigateHttp.otherError m => { status := "error", message := m }

/-- Observable outcome of one `sync_cameras` call: reported status, restart
report when a restart was attempted, number of restart calls, and the config
file state after the call. -/
structure SyncRun where
  status : String
  restartCalls : Nat
  restartResult : Option RestartResult
  file : Option String
  deriving DecidableEq, Repr

/-- Transcription of `FrigateConfigGenerator.sync_cameras` over an explicit
config-file state: generate the document, write it (the `writeOk` oracle
models the try/except of `write_config`; on failure the file keeps its prior
content and the call reports an error without touching Frigate), then
request a Frigate restart when `restart` is set, recording the restart
report whatever it is. -/
def syncCameras (cams : List CameraDict) (restart : Bool) (file0 : Option String)
    (writeOk : Bool) (o : FrigateHttp) : SyncRun :=
  if writeOk = false then
    { status := "error", restartCalls := 0, restartResult := Option.none, file := file0 }
  else if restart then
    { status := "ok", restartCalls := 1, restartResult := some (restartFrigate o),
      file := some (writeConfigText cams) }
  else
    { status := "ok", restartCalls := 0, restartResult := Option.none,
      file := some (writeConfigText cams) }

/-- C7: the durable write and the restart are independent — a failed write
reports an error, attempts no restart and leaves the file as it was, while a
successful write leaves the generated document durably in place for every
restart outcome (including failures), with the restart outcome reported as
the call's restart status rather than rolling anything back. -/
theorem syncCameras_write_then_restart (cams : List CameraDict)
    (restart : Bool) (file0 : Option String) (o : FrigateHttp) :
    ((syncCameras cams restart file0 false o).status = "error" ∧
     (syncCameras cams restart file0 false o).restartCalls = 0 ∧
     (syncCameras cams restart file0 false o).file = file0) ∧
    ((syncCameras cams true file0 true o).file = some (writeConfigText cams) ∧
     (syncCameras cams true file0 true o).status = "ok" ∧
     (syncCameras cams true file0 true o).restartCalls = 1 ∧
     (syncCameras cams true file0 true o).restartResult = some (restartFrigate o)) :=
  ⟨⟨rfl, rfl, rfl⟩, ⟨rfl, rfl, rfl, rfl⟩⟩

/-! ## Camera CRUD coordination (`app/routers/cameras.py`) -/

/-- A camera create request; only the name takes part in the duplicate checks
and the batching decision of `create_cameras_bulk`. -/
structure CameraReq where
  name : String
  deriving DecidableEq, Repr

/-- The duplicate-checking create loop of `create_cameras_bulk`:
`existingLower` holds the lowercased names already known (extended as cameras
are created), `created` the created camera names in order; returns the
created names and the error count. -/
def bulkCreateLoop : List CameraReq → List String → List String → List String × Nat
  | [], _, created => (created, 0)
  | r :: rest, existingLower, created =>
    if strToLower r.name ∈ existingLower then
      let res := bulkCreateLoop rest existingLower created
      (res.1, res.2 + 1)
    else if strToLower r.name ∈ created.map strToLower then
      let res := bulkCreateLoop rest existingLower created
      (res.1, res.2 + 1)
    else
      bulkCreateLoop rest (strToLower r.name :: existingLower) (created ++ [r.name])

/-- Observable outcome of `create_cameras_bulk`: created names, error count,
and how many times each batched effect was triggered. -/
structure BulkRun where
  created : List String
  errors : Nat
  go2rtcRestartCalls : Nat
  frigateSyncTasks : Nat
  deriving DecidableEq, Repr

/-- Transcription of `create_cameras_bulk`: run the create loop against the
lowercased existing store names, call the (deprecated, no-op) go2rtc restart
once at the end when anything was created, and schedule the
`sync_all_to_frigate` background task once at the end when anything was
created — never once per camera. -/
def createCamerasBulk (existingNames : List String) (reqs : List CameraReq) : BulkRun :=
  let res := bulkCreateLoop reqs (existingNames.map strToLower) []
  { created := res.1
    errors := res.2
    go2rtcRestartCalls := if res.1 = [] then 0 else 1
    frigateSyncTasks := if res.1 = [] then 0 else 1 }

/-- Transcription of `sync_all_to_frigate`: one background task makes exactly
one `sync_frigate_config` call with `restart` set. -/
def syncAllToFrigate (cams : List CameraDict) (file0 : Option String)
    (writeOk : Bool) (o : FrigateHttp) : SyncRun :=
  syncCameras cams true file0 writeOk o

/-- C6: a bulk create in which at least one camera was created schedules the
Frigate config sync task exactly once for the whole batch, and that single
task performs exactly one detection-engine restart call (on the successful
write path), so the batch causes exactly one restart, never one per
camera. -/
theorem bulkCreate_single_sync (existingNames : List String) (reqs : List CameraReq)
    (cams : List CameraDict) (file0 : Option String) (o : FrigateHttp)
    (h : 1 ≤ (createCamerasBulk existingNames reqs).created.length) :
    (createCamerasBulk existingNames reqs).frigateSyncTasks = 1 ∧
    (createCamerasBulk existingNames reqs).frigateSyncTasks *
      (syncAllToFrigate cams file0 true o).restartCalls = 1 := by
  have hne : (createCamerasBulk existingNames reqs).created ≠ [] := by
    intro he
    rw [he] at h
    simp at h
  have hcre : (createCamerasBulk existingNames reqs).frigateSyncTasks =
      if (createCamerasBulk existingNames reqs).created = [] then 0 else 1 := rfl
  have hrc : (syncAllToFrigate cams file0 true o).restartCalls = 1 := rfl
  constructor
  · rw [hcre, if_neg hne]
  · rw [hcre, if_neg hne, hrc]

/-- The 50 fresh camera requests of the C6 witness scenario. -/
def bulk50Reqs : List CameraReq :=
  (List.range 50).map fun i => { name := "cam" ++ toString i }

/-- Witness for C6: bulk-creating 50 fresh cameras creates all 50, schedules
the sync task once, and results in exactly one detection-engine restart
call. -/
theorem bulkCreate_single_sync_witness :
    (createCamerasBulk [] bulk50Reqs).created.length = 50 ∧
    (createCamerasBulk [] bulk50Reqs).frigateSyncTasks = 1 ∧
    (createCamerasBulk [] bulk50Reqs).frigateSyncTasks *
      (syncAllToFrigate [] Option.none true (FrigateHttp.status 200)).restartCalls = 1 :=
  ⟨by decide,
   bulkCreate_single_sync [] bulk50Reqs [] Option.none (FrigateHttp.status 200) (by decide)⟩

/-- C9: the Stream Sync Engine and the Config Reconciler use the identical
name normalization, the generated document's per-camera inputs reference
exactly the relay ids normalize(name)_sub (detect role) and
normalize(name)_main (record role), and those are exactly the ids
`register_stream` registers. -/
theorem normalize_agreement (s name mainUrl : String) (subUrl : Option String)
    (retentionDays : Nat) (recordingMode : String)
    (eventRetentionDays detectWidth detectHeight detectFps : Nat)
    (objects : List String) (zonesConfig : Option String) :
    smNormalizeName s = cgNormalizeName s ∧
    (genCameraConfig name retentionDays recordingMode eventRetentionDays detectWidth
        detectHeight detectFps objects zonesConfig).ffmpegInputs =
      [{ path := GO2RTC_RTSP_URL ++ "/" ++ smNormalizeName name ++ "_sub"
         roles := ["detect"] },
       { path := GO2RTC_RTSP_URL ++ "/" ++ smNormalizeName name ++ "_main"
         roles := ["record"] }] ∧
    (registerStreamConv name mainUrl subUrl).mainStreamId = smNormalizeName name ++ "_main" ∧
    (registerStreamConv name mainUrl subUrl).subStreamId = smNormalizeName name ++ "_sub" :=
  ⟨rfl, rfl, rfl, rfl⟩

end TitanNVR
